import Mathlib

/-!
Shallow embedding of `src/main.py`, a Telegram bot that stores a subscriber
list in a flat file, formats a daily schedule message from a weekday→text
mapping, and broadcasts it once a day at 08:00 Asia/Baku, plus two commands
(`/start`, `/today`).

Strings are modelled with Lean `String` at the interfaces and `List Char`
in the splitting/stripping primitives, which mirror Python's `str.split`,
`str.strip` and `in` semantics exactly.
-/

namespace ScheduleBot

/-- Python's whitespace set for `str.strip()`. -/
def isPyWhitespace (c : Char) : Bool :=
  c = ' ' || c = '\t' || c = '\n' || c = '\x0d' || c = '\x0b' || c = '\x0c'

/-- Python `str.strip()`: remove leading and trailing whitespace. -/
def pyStrip (s : List Char) : List Char :=
  ((s.dropWhile isPyWhitespace).reverse.dropWhile isPyWhitespace).reverse

/-- Python `str.split(',')`: split at every comma; `"".split(',') = [""]`. -/
def pySplitComma : List Char → List (List Char)
  | [] => [[]]
  | c :: rest =>
    if c = ',' then [] :: pySplitComma rest
    else
      match pySplitComma rest with
      | [] => [[c]]
      | g :: gs => (c :: g) :: gs

/-- Python `str.split(" - ")`: split at each non-overlapping occurrence of
the three-character separator, scanning left to right. -/
def pySplitDash : List Char → List (List Char)
  | ' ' :: '-' :: ' ' :: rest => [] :: pySplitDash rest
  | c :: rest =>
    (match pySplitDash rest with
     | [] => [[c]]
     | g :: gs => (c :: g) :: gs)
  | [] => [[]]

/-- Number of non-overlapping occurrences of `" - "`, scanning left to
right (Python's `str.count(" - ")`). -/
def countDashSep : List Char → Nat
  | ' ' :: '-' :: ' ' :: rest => countDashSep rest + 1
  | _ :: rest => countDashSep rest
  | [] => 0

/-- Python `" - " in entry`. -/
def containsDashSep : List Char → Bool
  | ' ' :: '-' :: ' ' :: _ => true
  | _ :: rest => containsDashSep rest
  | [] => false

/-- The `" — "` (em dash) glue used when an entry is swapped. -/
def emDash : List Char := " — ".data

/-- The body of the entry loop: `if " - " in entry: parts = entry.split(" - ");
if len(parts) == 2: time — name else: entry else: entry`. -/
def render_entry (entry : List Char) : List Char :=
  if containsDashSep entry then
    match pySplitDash entry with
    | [name, time] => time ++ emDash ++ name
    | _ => entry
  else entry

/-- Association-list counterpart of Python `dict.get`. -/
def dictGet (m : List (String × String)) (k : String) : Option String :=
  (m.find? (fun p => p.1 == k)).map (fun p => p.2)

/-- `DAYS_MAPPING` from `main.py`. -/
def DAYS_MAPPING : List (String × String) :=
  [("Monday", "Понедельник"),
   ("Tuesday", "Вторник"),
   ("Wednesday", "Среда"),
   ("Thursday", "Четверг"),
   ("Friday", "Пятница"),
   ("Saturday", "Суббота"),
   ("Sunday", "Воскресенье")]

/-- The weekday names `datetime.strftime("%A")` can produce. -/
def englishWeekdays : List String :=
  ["Monday", "Tuesday", "Wednesday", "Thursday", "Friday", "Saturday", "Sunday"]

/-- The loop `for entry in entries: message += ...` over the comma-split,
stripped entries of the raw text, accumulating one `\n`-terminated line
per entry. -/
def format_entries (t : String) : List Char :=
  (pySplitComma t.data).foldl
    (fun acc e => acc ++ render_entry (pyStrip e) ++ ['\n']) []

/-- The part of `get_schedule_message_for_today` after the Russian day name
is known: look up the raw text, fall back to "Нет занятий." when missing or
empty, otherwise the header plus the formatted entries. -/
def format_for_day (ru : String) (sched : List (String × String)) : String :=
  match dictGet sched ru with
  | none => "Сегодня " ++ ru ++ ":\nНет занятий."
  | some t =>
    if t = "" then "Сегодня " ++ ru ++ ":\nНет занятий."
    else ⟨("Сегодня " ++ ru ++ ":\n").data ++ format_entries t⟩

/-- `get_schedule_message_for_today` from `main.py`, with the current day's
English name and the parsed schedule file as parameters (the Python code
reads them from the clock and from `schedule.json`). -/
def get_schedule_message_for_today (day_name_en : String)
    (sched : List (String × String)) : String :=
  match dictGet DAYS_MAPPING day_name_en with
  | none => "Error: Could not map day " ++ day_name_en ++ " to Russian."
  | some ru => format_for_day ru sched

example : get_schedule_message_for_today "Monday" [("Понедельник", "Математика - 09:00, Физика - 10:30")]
    = "Сегодня Понедельник:\n09:00 — Математика\n10:30 — Физика\n" := by decide

example : get_schedule_message_for_today "Sunday" [] = "Сегодня Воскресенье:\nНет занятий." := by decide

example : render_entry "x - - y".data = "- y — x".data := by decide

example : render_entry "a - b - c".data = "a - b - c".data := by decide

/-! ## Subscriber store -/

/-- State of `subscribers.json` on disk: absent, present but not valid
JSON, or a parsed list of chat ids. -/
inductive SubStore
  | missing
  | malformed
  | stored (data : List Int)
deriving DecidableEq

/-- `load_subscribers` from `main.py`: empty set when the file is missing
or fails to parse, otherwise `set(data)`. The Python set is modelled as a
duplicate-free list. -/
def load_subscribers : SubStore → List Int
  | .missing => []
  | .malformed => []
  | .stored data => data.dedup

/-- `save_subscriber` from `main.py`: load the set, and only when the chat
id is new, add it and rewrite the file with `list(subscribers)`. -/
def save_subscriber (chat_id : Int) (st : SubStore) : SubStore :=
  let subscribers := load_subscribers st
  if chat_id ∈ subscribers then st
  else .stored (chat_id :: subscribers)

/-! ## Command handlers -/

/-- The greeting `start` replies with, as a function of the user mention. -/
def greeting (userMention : String) : String :=
  "Привет, " ++ userMention ++
    "! Я буду отправлять тебе расписание каждый день в 08:00 по Баку. Напиши /today чтобы узнать расписание на сегодня."

/-- The `/start` handler: persist the chat id, reply with the greeting.
Returns the new store state and the reply text. -/
def start (chat_id : Int) (userMention : String) (st : SubStore) :
    SubStore × String :=
  (save_subscriber chat_id st, greeting userMention)

/-- The `/today` handler: reply with today's formatted schedule message. -/
def today (day_name_en : String) (sched : List (String × String)) : String :=
  get_schedule_message_for_today day_name_en sched

/-- The commands registered in `__main__` via `add_handler`, in order. -/
def registered_commands : List String := ["start", "today"]

/-! ## Daily broadcast job -/

/-- Observable outcome of the fan-out loop: every send that was attempted,
as (chat id, text), and every failure that was logged, as
(chat id, error). -/
structure JobResult where
  sent : List (Int × String)
  logged : List (Int × String)
deriving DecidableEq

/-- The `for chat_id in subscribers` loop of `send_schedule_job`: attempt
each send; on error, log and continue with the next subscriber. `send`
models `application.bot.send_message` and either succeeds or raises. -/
def broadcast (send : Int → String → Except String Unit) (message : String) :
    List Int → JobResult
  | [] => ⟨[], []⟩
  | chat_id :: rest =>
    let r := broadcast send message rest
    match send chat_id message with
    | .ok _ => ⟨(chat_id, message) :: r.sent, r.logged⟩
    | .error e => ⟨(chat_id, message) :: r.sent, (chat_id, e) :: r.logged⟩

/-- `send_schedule_job` from `main.py`: build today's message, load the
subscribers, fan out. -/
def send_schedule_job (send : Int → String → Except String Unit)
    (day_name_en : String) (sched : List (String × String))
    (st : SubStore) : JobResult :=
  let message := get_schedule_message_for_today day_name_en sched
  broadcast send message (load_subscribers st)

/-! ## Scheduling -/

/-- `TIMEZONE = pytz.timezone("Asia/Baku")`, kept as the zone name. -/
def TIMEZONE : String := "Asia/Baku"

/-- A daily cron trigger as configured by
`scheduler.add_job(send_schedule_job, 'cron', hour=8, minute=0)` on a
scheduler whose timezone is `TIMEZONE`: with no day fields given, the
trigger matches every date, at the given hour and minute of its
timezone's wall clock. -/
structure CronJob where
  hour : Nat
  minute : Nat
  tzName : String
deriving DecidableEq

/-- The one job `post_init` registers. -/
def post_init : CronJob := { hour := 8, minute := 0, tzName := TIMEZONE }

/-- When a daily cron trigger fires: exactly at wall-clock `h:m` (in its
timezone) matching its hour and minute fields, on any date. -/
def CronJob.firesAt (j : CronJob) (h m : Nat) : Bool :=
  h == j.hour && m == j.minute

/-! ## Helper lemmas -/

lemma load_subscribers_nodup (st : SubStore) : (load_subscribers st).Nodup := by
  cases st <;> simp [load_subscribers, List.nodup_dedup]

lemma load_save (c : Int) (st : SubStore) :
    load_subscribers (save_subscriber c st)
      = if c ∈ load_subscribers st then load_subscribers st
        else c :: load_subscribers st := by
  by_cases h : c ∈ load_subscribers st
  · simp [save_subscriber, h]
  · have h1 : save_subscriber c st = .stored (c :: load_subscribers st) := by
      simp [save_subscriber, h]
    rw [h1, if_neg h]
    show (c :: load_subscribers st).dedup = _
    rw [List.dedup_cons_of_not_mem h, List.Nodup.dedup (load_subscribers_nodup st)]

lemma mem_load_save (c : Int) (st : SubStore) :
    c ∈ load_subscribers (save_subscriber c st) := by
  rw [load_save]
  by_cases h : c ∈ load_subscribers st <;> simp [h]

lemma broadcast_sent_fst (send : Int → String → Except String Unit)
    (msg : String) (l : List Int) :
    (broadcast send msg l).sent.map Prod.fst = l := by
  induction l with
  | nil => rfl
  | cons a rest ih =>
    cases h : send a msg <;> simp [broadcast, h, ih]

lemma broadcast_logs_failures (send : Int → String → Except String Unit)
    (msg : String) (l : List Int) (c : Int) (e : String)
    (hc : c ∈ l) (he : send c msg = .error e) :
    (c, e) ∈ (broadcast send msg l).logged := by
  induction l with
  | nil => cases hc
  | cons a rest ih =>
    rcases List.mem_cons.mp hc with rfl | hc
    · simp [broadcast, he]
    · cases h : send a msg <;> simp [broadcast, h, ih hc]

lemma broadcast_sent_snd (send : Int → String → Except String Unit)
    (msg : String) (l : List Int) :
    ∀ p ∈ (broadcast send msg l).sent, p.2 = msg := by
  induction l with
  | nil => intro p hp; cases hp
  | cons a rest ih =>
    intro p hp
    cases h : send a msg <;>
      (simp only [broadcast, h] at hp;
       rcases List.mem_cons.mp hp with rfl | hp <;> [rfl; exact ih p hp])

/-- A list of lines, each terminated by a newline, concatenated. -/
def joinedLines (ls : List (List Char)) : List Char :=
  (ls.map (fun l => l ++ ['\n'])).flatten

lemma foldl_lines (l : List (List Char)) (init : List Char) :
    l.foldl (fun acc e => acc ++ render_entry (pyStrip e) ++ ['\n']) init
      = init ++ joinedLines (l.map (fun e => render_entry (pyStrip e))) := by
  induction l generalizing init with
  | nil => simp [joinedLines]
  | cons a rest ih =>
    rw [List.foldl_cons, ih]
    simp [joinedLines, Function.comp]

lemma format_entries_eq (t : String) :
    format_entries t
      = joinedLines ((pySplitComma t.data).map
          (fun e => render_entry (pyStrip e))) := by
  rw [format_entries, foldl_lines]
  simp

lemma pySplitDash_length (s : List Char) :
    (pySplitDash s).length = countDashSep s + 1 := by
  induction s using countDashSep.induct with
  | case1 rest ih => simp [pySplitDash, countDashSep, ih]
  | case2 c rest h ih =>
    rw [pySplitDash.eq_2 c rest h, countDashSep.eq_2 c rest h]
    cases hp : pySplitDash rest with
    | nil => rw [hp] at ih; simp at ih
    | cons g gs => rw [hp] at ih; simpa using ih
  | case3 => rfl

lemma containsDashSep_iff (s : List Char) :
    containsDashSep s = true ↔ countDashSep s ≠ 0 := by
  induction s using countDashSep.induct with
  | case1 rest ih => simp [containsDashSep, countDashSep]
  | case2 c rest h ih =>
    rw [containsDashSep.eq_2 c rest h, countDashSep.eq_2 c rest h]
    exact ih
  | case3 => simp [containsDashSep, countDashSep]

lemma save_subscriber_noop (c : Int) (st : SubStore)
    (h : c ∈ load_subscribers st) : save_subscriber c st = st := by
  simp [save_subscriber, h]

/-! ## Claims -/

/-- Claim C1: in the daily broadcast job, every subscriber is attempted (in
order, so every subscriber after a failing one is still attempted), and
every send that raises an error has that error logged; no single failure
aborts the batch. -/
theorem job_attempts_all_and_logs_failures
    (send : Int → String → Except String Unit) (day : String)
    (sched : List (String × String)) (st : SubStore) :
    (send_schedule_job send day sched st).sent.map Prod.fst
      = load_subscribers st
    ∧ ∀ c ∈ load_subscribers st, ∀ e : String,
        send c (get_schedule_message_for_today day sched) = .error e →
        (c, e) ∈ (send_schedule_job send day sched st).logged :=
  ⟨broadcast_sent_fst send _ _,
   fun c hc e he => broadcast_logs_failures send _ _ c e hc he⟩

/-- Witness for C1: with two subscribers where sending to the first raises,
the second is still attempted and the error is logged. -/
theorem job_attempts_all_and_logs_failures_witness :
    (1 : Int) ∈ load_subscribers (.stored [1, 2])
    ∧ (send_schedule_job
          (fun c _ => if c = 1 then .error "boom" else .ok ())
          "Monday" [] (.stored [1, 2])).sent.map Prod.fst
        = load_subscribers (.stored [1, 2])
    ∧ ((1 : Int), "boom") ∈ (send_schedule_job
          (fun c _ => if c = 1 then .error "boom" else .ok ())
          "Monday" [] (.stored [1, 2])).logged :=
  ⟨by decide,
   (job_attempts_all_and_logs_failures
      (fun c _ => if c = 1 then .error "boom" else .ok ())
      "Monday" [] (.stored [1, 2])).1,
   (job_attempts_all_and_logs_failures
      (fun c _ => if c = 1 then .error "boom" else .ok ())
      "Monday" [] (.stored [1, 2])).2 1 (by decide) "boom" rfl⟩

/-- Claim C2: `save_subscriber c` makes `load_subscribers` return the prior
set union \x7bc\x7d; when `c` is already subscribed the file is not rewritten
(the store state is returned unchanged), and `save_subscriber` is
idempotent, so the store behaves as a duplicate-free set. -/
theorem save_subscriber_set_semantics (c : Int) (st : SubStore) :
    (load_subscribers (save_subscriber c st)).toFinset
      = insert c (load_subscribers st).toFinset
    ∧ (c ∈ load_subscribers st → save_subscriber c st = st)
    ∧ save_subscriber c (save_subscriber c st) = save_subscriber c st := by
  refine ⟨?_, fun h => save_subscriber_noop c st h,
    save_subscriber_noop c _ (mem_load_save c st)⟩
  rw [load_save]
  by_cases h : c ∈ load_subscribers st
  · rw [if_pos h]
    exact (Finset.insert_eq_self.mpr (List.mem_toFinset.mpr h)).symm
  · rw [if_neg h]; simp

/-- Witness for C2: a chat id already in the store leaves the store state
untouched. -/
theorem save_subscriber_set_semantics_witness :
    (5 : Int) ∈ load_subscribers (.stored [5])
    ∧ save_subscriber 5 (.stored [5]) = .stored [5] :=
  ⟨by decide, (save_subscriber_set_semantics 5 (.stored [5])).2.1 (by decide)⟩

/-- Claim C3: when today's raw schedule text is a non-empty string, the
formatted message is the header line followed by exactly one line per
comma-separated entry of the raw text, in order, each entry stripped of
surrounding whitespace before rendering. -/
theorem message_lines_one_per_entry (d ru : String)
    (sched : List (String × String)) (t : String)
    (h1 : dictGet DAYS_MAPPING d = some ru)
    (h2 : dictGet sched ru = some t) (h3 : t ≠ "") :
    get_schedule_message_for_today d sched
      = ⟨joinedLines (("Сегодня " ++ ru ++ ":").data
          :: (pySplitComma t.data).map (fun e => render_entry (pyStrip e)))⟩ := by
  have hg : get_schedule_message_for_today d sched = format_for_day ru sched := by
    unfold get_schedule_message_for_today
    rw [h1]
  rw [hg]
  unfold format_for_day
  simp only [h2]
  rw [if_neg h3, format_entries_eq]
  congr 1
  simp [joinedLines, String.data_append]

/-- Witness for C3: a two-entry Tuesday schedule renders as a header plus
two lines. -/
theorem message_lines_one_per_entry_witness :
    dictGet DAYS_MAPPING "Tuesday" = some "Вторник"
    ∧ dictGet [("Вторник", "Химия - 11:00, Пение")] "Вторник"
        = some "Химия - 11:00, Пение"
    ∧ ("Химия - 11:00, Пение" : String) ≠ ""
    ∧ get_schedule_message_for_today "Tuesday"
          [("Вторник", "Химия - 11:00, Пение")]
        = ⟨joinedLines (("Сегодня " ++ "Вторник" ++ ":").data
            :: (pySplitComma ("Химия - 11:00, Пение" : String).data).map
                 (fun e => render_entry (pyStrip e)))⟩ :=
  ⟨by decide, by decide, by decide,
   message_lines_one_per_entry "Tuesday" "Вторник"
     [("Вторник", "Химия - 11:00, Пение")] "Химия - 11:00, Пение"
     (by decide) (by decide) (by decide)⟩

/-- Claim C4: exactly two commands are registered, `start` and `today`; the
`/start` handler persists the requesting chat id through `save_subscriber`
(so it is in the loaded subscriber set afterwards) and replies with the
greeting; the `/today` handler replies with today's formatted schedule
message. -/
theorem two_commands_start_today :
    registered_commands = ["start", "today"]
    ∧ (∀ (c : Int) (u : String) (st : SubStore),
        (start c u st).1 = save_subscriber c st
        ∧ c ∈ load_subscribers (start c u st).1
        ∧ (start c u st).2 = greeting u)
    ∧ ∀ (d : String) (sched : List (String × String)),
        today d sched = get_schedule_message_for_today d sched :=
  ⟨rfl, fun c _ st => ⟨rfl, mem_load_save c st, rfl⟩, fun _ _ => rfl⟩

/-- Claim C5: the text each subscriber is sent by the daily job is exactly
the text the `/today` command replies with, for the same day and schedule
file contents. -/
theorem broadcast_text_eq_today_reply
    (send : Int → String → Except String Unit) (day : String)
    (sched : List (String × String)) (st : SubStore) :
    ∀ p ∈ (send_schedule_job send day sched st).sent,
      p.2 = today day sched :=
  fun p hp => broadcast_sent_snd send _ _ p hp

/-- Witness for C5: the one message attempted for subscriber 7 carries the
`/today` reply text. -/
theorem broadcast_text_eq_today_reply_witness :
    ((7 : Int), today "Monday" [])
        ∈ (send_schedule_job (fun _ _ => .ok ()) "Monday" []
            (.stored [7])).sent
    ∧ ((7 : Int), today "Monday" []).2 = today "Monday" [] :=
  ⟨by decide,
   broadcast_text_eq_today_reply (fun _ _ => .ok ()) "Monday" [] (.stored [7])
     (7, today "Monday" []) (by decide)⟩

/-- Claim C6: the broadcast job is scheduled as a daily cron trigger that
fires exactly at wall-clock 08:00, in the timezone Asia/Baku, and at no
other hour-minute. -/
theorem daily_job_fires_at_0800_baku :
    post_init.tzName = "Asia/Baku"
    ∧ ∀ h m : Nat, post_init.firesAt h m = true ↔ (h = 8 ∧ m = 0) := by
  refine ⟨rfl, fun h m => ?_⟩
  simp [CronJob.firesAt, post_init, TIMEZONE]

/-- Witness for C6: the trigger fires at 08:00 and not at 09:00. -/
theorem daily_job_fires_at_0800_baku_witness :
    post_init.firesAt 8 0 = true ∧ post_init.firesAt 9 0 = false :=
  ⟨(daily_job_fires_at_0800_baku.2 8 0).mpr ⟨rfl, rfl⟩, by decide⟩

/-- Claim C7: every weekday name the clock can produce has an entry in
`DAYS_MAPPING`, so the lookup succeeds and the formatter always takes the
mapped-day branch; the error branch is unreachable. -/
theorem days_mapping_total (d : String) (h : d ∈ englishWeekdays) :
    (dictGet DAYS_MAPPING d).isSome = true
    ∧ ∀ sched : List (String × String),
        get_schedule_message_for_today d sched
          = format_for_day ((dictGet DAYS_MAPPING d).getD "") sched := by
  fin_cases h <;> exact ⟨rfl, fun sched => rfl⟩

/-- Witness for C7: "Wednesday" is mapped and formatted through the
mapped-day branch. -/
theorem days_mapping_total_witness :
    "Wednesday" ∈ englishWeekdays
    ∧ (dictGet DAYS_MAPPING "Wednesday").isSome = true
    ∧ get_schedule_message_for_today "Wednesday" []
        = format_for_day ((dictGet DAYS_MAPPING "Wednesday").getD "") [] :=
  ⟨by decide, (days_mapping_total "Wednesday" (by decide)).1,
   (days_mapping_total "Wednesday" (by decide)).2 []⟩

/-- Claim C8: `load_subscribers` never raises on a missing or malformed
store: it is total in this embedding and returns the empty set in both
cases. -/
theorem load_subscribers_empty_on_bad_store :
    load_subscribers .missing = [] ∧ load_subscribers .malformed = [] :=
  ⟨rfl, rfl⟩

/-- Claim C9: when the schedule mapping has no entry for today's Russian
day name, or the entry is the empty string, the formatter returns the
fallback "Нет занятий." message; it reads nothing but the schedule mapping
(it is a function of the day and the mapping alone). -/
theorem fallback_message_when_no_entry (d ru : String)
    (sched : List (String × String))
    (h1 : dictGet DAYS_MAPPING d = some ru)
    (h2 : dictGet sched ru = none ∨ dictGet sched ru = some "") :
    get_schedule_message_for_today d sched
      = "Сегодня " ++ ru ++ ":\nНет занятий." := by
  have hg : get_schedule_message_for_today d sched = format_for_day ru sched := by
    unfold get_schedule_message_for_today
    rw [h1]
  rw [hg]
  unfold format_for_day
  rcases h2 with h2 | h2 <;> rw [h2] <;> simp

/-- Witness for C9: a Friday whose entry is the empty string yields the
fallback message. -/
theorem fallback_message_when_no_entry_witness :
    dictGet DAYS_MAPPING "Friday" = some "Пятница"
    ∧ dictGet [("Пятница", "")] "Пятница" = some ""
    ∧ get_schedule_message_for_today "Friday" [("Пятница", "")]
        = "Сегодня " ++ "Пятница" ++ ":\nНет занятий." :=
  ⟨by decide, by decide,
   fallback_message_when_no_entry "Friday" "Пятница" [("Пятница", "")]
     (by decide) (Or.inr (by decide))⟩

/-- Claim C10: an entry with exactly one non-overlapping occurrence of the
separator " - " is rendered with its two parts swapped and joined by an em
dash; an entry with zero or two-or-more occurrences is rendered
verbatim. -/
theorem entry_swap_semantics (entry : List Char) :
    (countDashSep entry = 1 →
      render_entry entry
        = (pySplitDash entry).getD 1 [] ++ emDash
            ++ (pySplitDash entry).getD 0 [])
    ∧ (countDashSep entry ≠ 1 → render_entry entry = entry) := by
  constructor
  · intro h
    have hc : containsDashSep entry = true :=
      (containsDashSep_iff entry).mpr (by omega)
    have hl : (pySplitDash entry).length = 2 := by
      rw [pySplitDash_length, h]
    obtain ⟨n, t2, hnt⟩ := List.length_eq_two.mp hl
    simp [render_entry, hc, hnt]
  · intro h
    by_cases hc : containsDashSep entry = true
    · have hcount : countDashSep entry ≠ 0 :=
        (containsDashSep_iff entry).mp hc
      have hl : 3 ≤ (pySplitDash entry).length := by
        rw [pySplitDash_length]; omega
      rcases hps : pySplitDash entry with _ | ⟨a, _ | ⟨b, _ | ⟨c', rest⟩⟩⟩ <;>
        (rw [hps] at hl; simp at hl)
      simp [render_entry, hc, hps]
    · simp [render_entry, hc]

/-- Witness for C10: "Математика - 09:00" has one separator and is swapped
into "09:00 — Математика". -/
theorem entry_swap_semantics_witness :
    countDashSep "Математика - 09:00".data = 1
    ∧ render_entry "Математика - 09:00".data
        = (pySplitDash "Математика - 09:00".data).getD 1 [] ++ emDash
            ++ (pySplitDash "Математика - 09:00".data).getD 0 [] :=
  ⟨by decide, (entry_swap_semantics "Математика - 09:00".data).1 (by decide)⟩

end ScheduleBot
